import Mathlib

/-!
Shallow embedding of `drivers/clocksource/timer-microchip-pit64.c`.

The file contains two near-duplicate driver variants for the same 64-bit
Periodic Interval Timer block: a legacy variant (`pit64_*`, `AT91_*`
register macros) and a current variant (`mchp_pit64_*`, `MCHP_*` macros).
Both are embedded here.  Hardware accesses and resource operations are
modelled as explicit traces (`Act`); machine integers are `Nat` with
explicit `% 2^32` truncation where the C code converts to `u32`
(the target is 32-bit ARM, so `unsigned long` is 32 bits).
-/

namespace Pit64

/-- `2^32`, the modulus of a C `u32`. -/
def U32MOD : Nat := 4294967296

/-- `ULLONG_MAX`, i.e. `2^64 - 1`. -/
def ULLONG_MAX : Nat := 18446744073709551615

/- Register offsets and bit masks, legacy variant (`AT91_*` macros).
   The current variant's `MCHP_*` macros have identical values. -/

def AT91_PIT64_CR : Nat := 0x00
def AT91_PIT64_CR_START : Nat := 1
def AT91_PIT64_CR_SWRST : Nat := 256

def AT91_PIT64_MR : Nat := 0x04
def AT91_PIT64_MR_CONT : Nat := 1
def AT91_PIT64_MR_SMOD : Nat := 16
def AT91_PIT64_MR_PRES : Nat := 0xF00

def AT91_PIT64_LSB_PR : Nat := 0x08
def AT91_PIT64_MSB_PR : Nat := 0x0C

def AT91_PIT64_IER : Nat := 0x10
def AT91_PIT64_IER_PERIOD : Nat := 1

def AT91_PIT64_ISR : Nat := 0x1C
def AT91_PIT64_ISR_PERIOD : Nat := 1

def AT91_PIT64_TLSB_CVR : Nat := 0x20
def AT91_PIT64_TMSB_CVR : Nat := 0x24

def AT91_PRES_MAX : Nat := 0x10
def AT91_PIT64_CS_RATE : Nat := 2500000
def AT91_PIT64_CE_RATE : Nat := 2500000
def AT91_PIT64_LSBMASK : Nat := 0xFFFFFFFF

/-- `AT91_PIT64_PRESCALER(p) = AT91_PIT64_MR_PRES & ((p) << 8)`. -/
def AT91_PIT64_PRESCALER (p : Nat) : Nat := AT91_PIT64_MR_PRES &&& (p <<< 8)

def MCHP_PIT64_CR : Nat := 0x00
def MCHP_PIT64_CR_START : Nat := 1
def MCHP_PIT64_CR_SWRST : Nat := 256

def MCHP_PIT64_MR : Nat := 0x04
def MCHP_PIT64_MR_CONT : Nat := 1
def MCHP_PIT64_MR_SMOD : Nat := 16
def MCHP_PIT64_MR_PRES : Nat := 0xF00

def MCHP_PIT64_LSB_PR : Nat := 0x08
def MCHP_PIT64_MSB_PR : Nat := 0x0C

def MCHP_PIT64_IER : Nat := 0x10
def MCHP_PIT64_IER_PERIOD : Nat := 1

def MCHP_PIT64_ISR : Nat := 0x1C
def MCHP_PIT64_ISR_PERIOD : Nat := 1

def MCHP_PIT64_TLSBR : Nat := 0x20
def MCHP_PIT64_TMSBR : Nat := 0x24

def MCHP_PRES_MAX : Nat := 0x10
def MCHP_PIT64_CS_RATE : Nat := 2500000
def MCHP_PIT64_CE_RATE : Nat := 2500000
def MCHP_PIT64_LSBMASK : Nat := 0xFFFFFFFF

/-- `MCHP_PIT64_PRESCALER(p) = MCHP_PIT64_MR_PRES & ((p) << 8)`. -/
def MCHP_PIT64_PRESCALER (p : Nat) : Nat := MCHP_PIT64_MR_PRES &&& (p <<< 8)

/-- The 32-bit two's-complement value of the C `int` expression `pres - 1`,
where `pres` is a `u8` (`struct pit64_common_data.pres`).  For `pres = 0`
this is `0xFFFFFFFF` (the representation of `-1`), as produced by the
integer promotion in `AT91_PIT64_PRESCALER(data->pres - 1)`. -/
def presMinusOne32 (pres : Nat) : Nat := (pres + 4294967295) % U32MOD

/- ===== Prescaler solver ===== -/

/-- The `for` loop body of `pit64_pres_compute`:
`for (pres = ...; pres < AT91_PRES_MAX; pres++) { tmp = clk_rate / pres; if (tmp <= max_rate) break; }`.
`fuel` counts the remaining loop-guard-passing iterations, i.e.
`AT91_PRES_MAX - pres` at entry; when the fuel runs out the loop exits with
the current `pres` (which then equals `AT91_PRES_MAX`).  `tmp` is a `u32`,
hence the `% U32MOD`. -/
def pit64_pres_scan (clk_rate max_rate : Nat) : Nat → Nat → Nat
  | pres, 0 => pres
  | pres, fuel + 1 =>
    if (clk_rate / pres) % U32MOD ≤ max_rate then pres
    else pit64_pres_scan clk_rate max_rate (pres + 1) fuel

/-- `pit64_pres_compute` (legacy variant): scan dividers starting at 2;
after the loop, the (dead) clamp `if (pres == AT91_PRES_MAX + 1) pres = AT91_PRES_MAX`. -/
def pit64_pres_compute (clk_rate max_rate : Nat) : Nat :=
  let pres := pit64_pres_scan clk_rate max_rate 2 (AT91_PRES_MAX - 2)
  if pres = AT91_PRES_MAX + 1 then AT91_PRES_MAX else pres

/-- The `for` loop of `mchp_pit64_pres_compute`:
`for (pres = 0; pres < MCHP_PRES_MAX; pres++) { tmp = clk_rate / (pres + 1); if (tmp <= max_rate) break; }`. -/
def mchp_pit64_pres_scan (clk_rate max_rate : Nat) : Nat → Nat → Nat
  | pres, 0 => pres
  | pres, fuel + 1 =>
    if (clk_rate / (pres + 1)) % U32MOD ≤ max_rate then pres
    else mchp_pit64_pres_scan clk_rate max_rate (pres + 1) fuel

/-- `mchp_pit64_pres_compute` (current variant): scan from 0 testing divider
`pres + 1`, return the loop index `pres`; clamp
`if (pres == MCHP_PRES_MAX) pres = MCHP_PRES_MAX - 1`. -/
def mchp_pit64_pres_compute (clk_rate max_rate : Nat) : Nat :=
  let pres := mchp_pit64_pres_scan clk_rate max_rate 0 MCHP_PRES_MAX
  if pres = MCHP_PRES_MAX then MCHP_PRES_MAX - 1 else pres

/- ===== Hardware and resource action traces ===== -/

/-- One observable action of the driver: a register access via the register
protocol, a clock / mapping / interrupt-line resource operation, or the
dispatch to the externally registered clockevent callback. -/
inductive Act where
  | write (off val : Nat)
  | read (off : Nat)
  | iomap
  | clkGet
  | clkPrepareEnable
  | clkDisableUnprepare
  | clkPut
  | iounmap
  | irqDispose
  | kfree
  | dispatch
  deriving DecidableEq

/-- The device register window: raw value stored at each byte offset. -/
def RegWindow : Type := Nat → Nat

/-- `pit64_read`: `readl_relaxed` returns a `u32`. -/
def pit64_read (w : RegWindow) (off : Nat) : Nat := w off % U32MOD

/-- `pit64_write`: `writel_relaxed` takes a `u32` value. -/
def pit64_write (off val : Nat) : Act := Act.write off (val % U32MOD)

/-- `mchp_pit64_read` (identical body to `pit64_read`). -/
def mchp_pit64_read (w : RegWindow) (off : Nat) : Nat := w off % U32MOD

/-- `mchp_pit64_write` (identical body to `pit64_write`). -/
def mchp_pit64_write (off val : Nat) : Act := Act.write off (val % U32MOD)

/-- `pit64_get_period`: read the LSB counter register first, then the MSB
counter register, and combine as `((u64)msb << 32) | lsb`.  Returns the
combined value together with the read trace in program order. -/
def pit64_get_period (w : RegWindow) : Nat × List Act :=
  let lsb := pit64_read w AT91_PIT64_TLSB_CVR
  let msb := pit64_read w AT91_PIT64_TMSB_CVR
  ((msb <<< 32) ||| lsb,
   [Act.read AT91_PIT64_TLSB_CVR, Act.read AT91_PIT64_TMSB_CVR])

/-- `pit64_set_period`: `lsb = cycles & AT91_PIT64_LSBMASK; msb = cycles >> 32;`
then write the MSB period register first and the LSB period register last. -/
def pit64_set_period (cycles : Nat) : List Act :=
  let lsb := cycles &&& AT91_PIT64_LSBMASK
  let msb := cycles >>> 32
  [pit64_write AT91_PIT64_MSB_PR msb, pit64_write AT91_PIT64_LSB_PR lsb]

/-- `mchp_pit64_get_period` (identical body, `MCHP_*` register names). -/
def mchp_pit64_get_period (w : RegWindow) : Nat × List Act :=
  let lsb := mchp_pit64_read w MCHP_PIT64_TLSBR
  let msb := mchp_pit64_read w MCHP_PIT64_TMSBR
  ((msb <<< 32) ||| lsb,
   [Act.read MCHP_PIT64_TLSBR, Act.read MCHP_PIT64_TMSBR])

/-- `mchp_pit64_set_period` (identical body, `MCHP_*` register names). -/
def mchp_pit64_set_period (cycles : Nat) : List Act :=
  let lsb := cycles &&& MCHP_PIT64_LSBMASK
  let msb := cycles >>> 32
  [mchp_pit64_write MCHP_PIT64_MSB_PR msb, mchp_pit64_write MCHP_PIT64_LSB_PR lsb]

/-- `struct pit64_common_data` fields relevant to the embedded operations
(the register base and clock handle are represented by the trace actions). -/
structure CommonData where
  cycles : Nat
  pres : Nat
  deriving DecidableEq

/-- `pit64_reset(data, mode, irq_ena)`:
`mode |= AT91_PIT64_PRESCALER(data->pres - 1);` then, in order: software
reset to CR, merged mode word to MR, reload value via `pit64_set_period`,
the IER period write if `irq_ena`, and the start command to CR. -/
def pit64_reset (cd : CommonData) (mode : Nat) (irq_ena : Bool) : List Act :=
  let mode2 := mode ||| AT91_PIT64_PRESCALER (presMinusOne32 cd.pres)
  [pit64_write AT91_PIT64_CR AT91_PIT64_CR_SWRST,
   pit64_write AT91_PIT64_MR mode2] ++
  pit64_set_period cd.cycles ++
  (if irq_ena then [pit64_write AT91_PIT64_IER AT91_PIT64_IER_PERIOD] else []) ++
  [pit64_write AT91_PIT64_CR AT91_PIT64_CR_START]

/-- `mchp_pit64_reset` (identical body, `MCHP_*` names). -/
def mchp_pit64_reset (cd : CommonData) (mode : Nat) (irq_ena : Bool) : List Act :=
  let mode2 := mode ||| MCHP_PIT64_PRESCALER (presMinusOne32 cd.pres)
  [mchp_pit64_write MCHP_PIT64_CR MCHP_PIT64_CR_SWRST,
   mchp_pit64_write MCHP_PIT64_MR mode2] ++
  mchp_pit64_set_period cd.cycles ++
  (if irq_ena then [mchp_pit64_write MCHP_PIT64_IER MCHP_PIT64_IER_PERIOD] else []) ++
  [mchp_pit64_write MCHP_PIT64_CR MCHP_PIT64_CR_START]

/- ===== Clockevent state machine, interrupt handler, suspend/resume ===== -/

/-- The clockevent framework state of the registered device. -/
inductive EventState where
  | shutdown
  | periodic
  | oneshot
  deriving DecidableEq

/-- The return value of a Linux interrupt handler: `IRQ_NONE` ("not mine")
or `IRQ_HANDLED`. -/
inductive IrqResult where
  | noneOf
  | handled
  deriving DecidableEq

/-- `pit64_interrupt(irq, dev_id)`.  `registered` is the global `data.ced`
pointer (`Option` because it may be NULL), `devId` is the `dev_id` cookie
the handler was registered with, and `isr` is the raw device value of the
interrupt status register.  Returns the handler result together with the
trace (ISR read, dispatch to the registered event callback). -/
def pit64_interrupt (registered : Option Nat) (devId : Nat) (isr : Nat) :
    IrqResult × List Act :=
  if registered ≠ some devId then (IrqResult.noneOf, [])
  else if (isr % U32MOD) &&& AT91_PIT64_ISR_PERIOD ≠ 0 then
    (IrqResult.handled, [Act.read AT91_PIT64_ISR, Act.dispatch])
  else (IrqResult.noneOf, [Act.read AT91_PIT64_ISR])

/-- `mchp_pit64_interrupt` (identical body, `MCHP_*` names). -/
def mchp_pit64_interrupt (registered : Option Nat) (devId : Nat) (isr : Nat) :
    IrqResult × List Act :=
  if registered ≠ some devId then (IrqResult.noneOf, [])
  else if (isr % U32MOD) &&& MCHP_PIT64_ISR_PERIOD ≠ 0 then
    (IrqResult.handled, [Act.read MCHP_PIT64_ISR, Act.dispatch])
  else (IrqResult.noneOf, [Act.read MCHP_PIT64_ISR])

/-- `pit64_clkevt_set_next_event(evt, cedev)`: program `evt` as the reload
value via `pit64_set_period`, then issue the start command; return 0.
The clockevent state at the time of the call is passed explicitly to show
the code ignores it. -/
def pit64_clkevt_set_next_event (evt : Nat) (state : EventState) :
    Int × List Act :=
  (0, pit64_set_period evt ++ [pit64_write AT91_PIT64_CR AT91_PIT64_CR_START])

/-- `mchp_pit64_clkevt_set_next_event` (identical body, `MCHP_*` names). -/
def mchp_pit64_clkevt_set_next_event (evt : Nat) (state : EventState) :
    Int × List Act :=
  (0, mchp_pit64_set_period evt ++ [mchp_pit64_write MCHP_PIT64_CR MCHP_PIT64_CR_START])

/-- `pit64_clkevt_suspend`: software reset to CR, then
`clk_disable_unprepare`.  The `state`/`enableOk` arguments are unused by
this callback; they are present so all power-management callbacks share a
signature (the C callbacks read shared globals instead). -/
def pit64_clkevt_suspend (cd : CommonData) (state : EventState)
    (enableOk : Bool) : List Act :=
  [pit64_write AT91_PIT64_CR AT91_PIT64_CR_SWRST, Act.clkDisableUnprepare]

/-- `pit64_clkevt_resume`: `clk_prepare_enable` (return early on failure),
then `pit64_reset` with `AT91_PIT64_MR_CONT` if the recorded clockevent
state is periodic and `AT91_PIT64_MR_SMOD` otherwise, interrupt enabled. -/
def pit64_clkevt_resume (cd : CommonData) (state : EventState)
    (enableOk : Bool) : List Act :=
  if enableOk then
    Act.clkPrepareEnable ::
      pit64_reset cd
        (if state = EventState.periodic then AT91_PIT64_MR_CONT
         else AT91_PIT64_MR_SMOD) true
  else [Act.clkPrepareEnable]

/-- `mchp_pit64_clkevt_suspend` (identical body, `MCHP_*` names). -/
def mchp_pit64_clkevt_suspend (cd : CommonData) (state : EventState)
    (enableOk : Bool) : List Act :=
  [mchp_pit64_write MCHP_PIT64_CR MCHP_PIT64_CR_SWRST, Act.clkDisableUnprepare]

/-- `mchp_pit64_clkevt_resume` (identical body, `MCHP_*` names). -/
def mchp_pit64_clkevt_resume (cd : CommonData) (state : EventState)
    (enableOk : Bool) : List Act :=
  if enableOk then
    Act.clkPrepareEnable ::
      mchp_pit64_reset cd
        (if state = EventState.periodic then MCHP_PIT64_MR_CONT
         else MCHP_PIT64_MR_SMOD) true
  else [Act.clkPrepareEnable]

/-- The `.suspend` / `.resume` fields of a `struct clock_event_device`. -/
structure ClkevtOps where
  suspend : CommonData → EventState → Bool → List Act
  resume : CommonData → EventState → Bool → List Act

/-- The legacy `static struct clock_event_device clkevt` initializer: the
source assigns `.suspend = pit64_clkevt_resume` and
`.resume = pit64_clkevt_suspend`. -/
def clkevt : ClkevtOps :=
  { suspend := pit64_clkevt_resume, resume := pit64_clkevt_suspend }

/-- The current `static struct clock_event_device mchp_clkevt` initializer:
`.suspend = mchp_pit64_clkevt_suspend`, `.resume = mchp_pit64_clkevt_resume`. -/
def mchp_clkevt : ClkevtOps :=
  { suspend := mchp_pit64_clkevt_suspend, resume := mchp_pit64_clkevt_resume }

/- ===== Lifecycle manager (device-tree init paths) ===== -/

/-- Linux errno values used by the driver. -/
def ENXIO_errno : Int := 6
def ENOMEM : Int := 12
def EBUSY : Int := 16
def ENODEV : Int := 19
def EINVAL : Int := 22

/-- `CONFIG_HZ`.  The concrete value does not matter for the theorems below;
100 is a common ARM configuration. -/
def HZ : Nat := 100

/-- The requested instantiation mode (`enum pit64_mode` /
`enum mchp_pit64_mode`). -/
inductive Pit64Mode where
  | clksrc
  | clkevt
  deriving DecidableEq

/-- Outcomes of the external calls the init paths make: whether `of_iomap`,
`of_clk_get`, `kzalloc`, `clk_prepare_enable`, `irq_of_parse_and_map`,
`request_irq` and `clocksource_register_hz` succeed, the error values they
produce on failure, and the rate reported by `clk_get_rate`. -/
structure InitEnv where
  iomap_ok : Bool
  clk_get_ok : Bool
  clk_get_err : Int
  alloc_ok : Bool
  clk_enable_ok : Bool
  clk_enable_err : Int
  clk_rate : Nat
  irq : Nat
  request_irq_ok : Bool
  request_irq_err : Int
  clksrc_register_ok : Bool
  clksrc_register_err : Int
  deriving DecidableEq

/-- The process-wide singleton registry `static struct pit64_data data`
(`csd` / `ced` slots), instance payloads reduced to their `CommonData`. -/
structure Registry where
  csd : Option CommonData
  ced : Option CommonData
  deriving DecidableEq

/-- `pit64_dt_init_clksrc(base, clk)`: allocate, enable the clock, compute
the prescaler against `AT91_PIT64_CS_RATE`, set `cycles = ULLONG_MAX`, call
`pit64_reset` with continuous mode and no interrupt, install the instance
into `data.csd`, and register the clocksource; on failure run the rollback
labels (`clk_unprepare`, `free`, which also clear `data.csd`).  Returns the
errno result, the registry after the call, and the action trace. -/
def pit64_dt_init_clksrc (env : InitEnv) (reg : Registry) :
    Int × Registry × List Act :=
  if !env.alloc_ok then (-ENOMEM, reg, [])
  else if !env.clk_enable_ok then
    (env.clk_enable_err, { reg with csd := none },
     [Act.clkPrepareEnable, Act.kfree])
  else
    let clk_rate := env.clk_rate
    let pres := pit64_pres_compute clk_rate AT91_PIT64_CS_RATE
    let cd : CommonData := { cycles := ULLONG_MAX, pres := pres }
    let tr := Act.clkPrepareEnable :: pit64_reset cd AT91_PIT64_MR_CONT false
    if env.clksrc_register_ok then (0, { reg with csd := some cd }, tr)
    else
      (env.clksrc_register_err, { reg with csd := none },
       tr ++ [Act.clkDisableUnprepare, Act.kfree])

/-- `pit64_dt_init_clkevt(base, clk, irq)`: allocate, enable the clock,
compute the prescaler against `AT91_PIT64_CE_RATE`, set
`cycles = DIV_ROUND_CLOSEST(clk_rate / pres, HZ)`, request the interrupt,
install the instance into `data.ced` and register the clockevent; on
failure run the rollback labels (which also clear `data.ced`). -/
def pit64_dt_init_clkevt (env : InitEnv) (reg : Registry) :
    Int × Registry × List Act :=
  if !env.alloc_ok then (-ENOMEM, reg, [])
  else if !env.clk_enable_ok then
    (env.clk_enable_err, { reg with ced := none },
     [Act.clkPrepareEnable, Act.kfree])
  else
    let clk_rate := env.clk_rate / pit64_pres_compute env.clk_rate AT91_PIT64_CE_RATE
    let cd : CommonData :=
      { cycles := (clk_rate + HZ / 2) / HZ,
        pres := pit64_pres_compute env.clk_rate AT91_PIT64_CE_RATE }
    if !env.request_irq_ok then
      (env.request_irq_err, { reg with ced := none },
       [Act.clkPrepareEnable, Act.clkDisableUnprepare, Act.kfree])
    else (0, { reg with ced := some cd }, [Act.clkPrepareEnable])

/-- `pit64_dt_init(node, mode)` (legacy variant): map the register window,
get the clock, then per mode check the registry slot (`goto clock_put` with
the initial `ret = -EINVAL` when occupied) and call the inner init; on any
error release the acquired resources in reverse order. -/
def pit64_dt_init (env : InitEnv) (reg : Registry) (mode : Pit64Mode) :
    Int × Registry × List Act :=
  if !env.iomap_ok then (-ENXIO_errno, reg, [])
  else if !env.clk_get_ok then
    (env.clk_get_err, reg, [Act.iomap, Act.iounmap])
  else
    match mode with
    | Pit64Mode.clksrc =>
      match reg.csd with
      | some _ => (-EINVAL, reg, [Act.iomap, Act.clkGet, Act.clkPut, Act.iounmap])
      | none =>
        let r := pit64_dt_init_clksrc env reg
        if r.1 ≠ 0 then
          (r.1, r.2.1, Act.iomap :: Act.clkGet :: r.2.2 ++ [Act.clkPut, Act.iounmap])
        else (0, r.2.1, Act.iomap :: Act.clkGet :: r.2.2)
    | Pit64Mode.clkevt =>
      match reg.ced with
      | some _ => (-EINVAL, reg, [Act.iomap, Act.clkGet, Act.clkPut, Act.iounmap])
      | none =>
        if env.irq = 0 then
          (-EINVAL, reg, [Act.iomap, Act.clkGet, Act.clkPut, Act.iounmap])
        else
          let r := pit64_dt_init_clkevt env reg
          if r.1 ≠ 0 then
            (r.1, r.2.1,
             Act.iomap :: Act.clkGet :: r.2.2 ++
               [Act.irqDispose, Act.clkPut, Act.iounmap])
          else (0, r.2.1, Act.iomap :: Act.clkGet :: r.2.2)

/-- `mchp_pit64_dt_init_clksrc` (identical logic to the legacy inner init,
using `mchp_pit64_pres_compute` and `mchp_pit64_reset`). -/
def mchp_pit64_dt_init_clksrc (env : InitEnv) (reg : Registry) :
    Int × Registry × List Act :=
  if !env.alloc_ok then (-ENOMEM, reg, [])
  else if !env.clk_enable_ok then
    (env.clk_enable_err, { reg with csd := none },
     [Act.clkPrepareEnable, Act.kfree])
  else
    let clk_rate := env.clk_rate
    let pres := mchp_pit64_pres_compute clk_rate MCHP_PIT64_CS_RATE
    let cd : CommonData := { cycles := ULLONG_MAX, pres := pres }
    let tr := Act.clkPrepareEnable :: mchp_pit64_reset cd MCHP_PIT64_MR_CONT false
    if env.clksrc_register_ok then (0, { reg with csd := some cd }, tr)
    else
      (env.clksrc_register_err, { reg with csd := none },
       tr ++ [Act.clkDisableUnprepare, Act.kfree])

/-- `mchp_pit64_dt_init_clkevt` (identical logic to the legacy inner init,
using `mchp_pit64_pres_compute`). -/
def mchp_pit64_dt_init_clkevt (env : InitEnv) (reg : Registry) :
    Int × Registry × List Act :=
  if !env.alloc_ok then (-ENOMEM, reg, [])
  else if !env.clk_enable_ok then
    (env.clk_enable_err, { reg with ced := none },
     [Act.clkPrepareEnable, Act.kfree])
  else
    let clk_rate := env.clk_rate / mchp_pit64_pres_compute env.clk_rate MCHP_PIT64_CE_RATE
    let cd : CommonData :=
      { cycles := (clk_rate + HZ / 2) / HZ,
        pres := mchp_pit64_pres_compute env.clk_rate MCHP_PIT64_CE_RATE }
    if !env.request_irq_ok then
      (env.request_irq_err, { reg with ced := none },
       [Act.clkPrepareEnable, Act.clkDisableUnprepare, Act.kfree])
    else (0, { reg with ced := some cd }, [Act.clkPrepareEnable])

/-- `mchp_pit64_dt_init(node, mode)` (current variant): as the legacy outer
init, except the occupied-slot paths set `ret = -EBUSY` and a failed
interrupt lookup sets `ret = -ENODEV`. -/
def mchp_pit64_dt_init (env : InitEnv) (reg : Registry) (mode : Pit64Mode) :
    Int × Registry × List Act :=
  if !env.iomap_ok then (-ENXIO_errno, reg, [])
  else if !env.clk_get_ok then
    (env.clk_get_err, reg, [Act.iomap, Act.iounmap])
  else
    match mode with
    | Pit64Mode.clksrc =>
      match reg.csd with
      | some _ => (-EBUSY, reg, [Act.iomap, Act.clkGet, Act.clkPut, Act.iounmap])
      | none =>
        let r := mchp_pit64_dt_init_clksrc env reg
        if r.1 ≠ 0 then
          (r.1, r.2.1, Act.iomap :: Act.clkGet :: r.2.2 ++ [Act.clkPut, Act.iounmap])
        else (0, r.2.1, Act.iomap :: Act.clkGet :: r.2.2)
    | Pit64Mode.clkevt =>
      match reg.ced with
      | some _ => (-EBUSY, reg, [Act.iomap, Act.clkGet, Act.clkPut, Act.iounmap])
      | none =>
        if env.irq = 0 then
          (-ENODEV, reg, [Act.iomap, Act.clkGet, Act.clkPut, Act.iounmap])
        else
          let r := mchp_pit64_dt_init_clkevt env reg
          if r.1 ≠ 0 then
            (r.1, r.2.1,
             Act.iomap :: Act.clkGet :: r.2.2 ++
               [Act.irqDispose, Act.clkPut, Act.iounmap])
          else (0, r.2.1, Act.iomap :: Act.clkGet :: r.2.2)

/-- Whether an action is a hardware register write. -/
def Act.isRegWrite : Act → Bool
  | Act.write _ _ => true
  | _ => false

/- ===== Theorems ===== -/

/-- Claim C1: the prescaler solver is claimed to return a divider in
`[1,16]`, never 0, for every pair of positive inputs, in both variants.
This fails on the code: for the positive inputs `(1000000, 2500000)` the
current variant `mchp_pit64_pres_compute` returns 0, and its clocksource
init installs that 0 directly as the instance divider (`cd.pres`), while
the legacy variant returns 2 at the same input. -/
theorem c1_mchp_pres_returns_zero_divider :
  0 < 1000000 ∧ 0 < 2500000 ∧
  mchp_pit64_pres_compute 1000000 2500000 = 0 ∧
  (mchp_pit64_dt_init_clksrc
      { iomap_ok := true, clk_get_ok := true, clk_get_err := 0,
        alloc_ok := true, clk_enable_ok := true, clk_enable_err := 0,
        clk_rate := 1000000, irq := 5, request_irq_ok := true,
        request_irq_err := 0, clksrc_register_ok := true,
        clksrc_register_err := 0 }
      { csd := none, ced := none }).2.1.csd =
    some { cycles := ULLONG_MAX, pres := 0 } ∧
  1 ≤ pit64_pres_compute 1000000 2500000 ∧
  pit64_pres_compute 1000000 2500000 ≤ 16 := by decide

/-- Claim C2: for input clock 32 MHz and target 2.5 MHz, both variants are
claimed to yield divider 13.  The legacy `pit64_pres_compute` does return
13, but the current `mchp_pit64_pres_compute` returns 12 (the zero-based
scan index for divider 13), and its clocksource init installs 12 as the
divider the clock rate is divided by. -/
theorem c2_concrete_divider_thirteen_vs_twelve :
  pit64_pres_compute 32000000 2500000 = 13 ∧
  32000000 / 13 = 2461538 ∧
  mchp_pit64_pres_compute 32000000 2500000 = 12 ∧
  (mchp_pit64_dt_init_clksrc
      { iomap_ok := true, clk_get_ok := true, clk_get_err := 0,
        alloc_ok := true, clk_enable_ok := true, clk_enable_err := 0,
        clk_rate := 32000000, irq := 5, request_irq_ok := true,
        request_irq_err := 0, clksrc_register_ok := true,
        clksrc_register_err := 0 }
      { csd := none, ced := none }).2.1.csd =
    some { cycles := ULLONG_MAX, pres := 12 } ∧
  (12 : Nat) ≠ 13 := by decide

/-- Claim C3: both variants' registered `.suspend` callback is claimed to
issue the software reset then disable the clock, and `.resume` to enable
the clock then call reset with mode from the recorded state.  The current
variant's registered callbacks conform, but the legacy `clkevt` initializer
assigns the callbacks swapped (`.suspend = pit64_clkevt_resume`,
`.resume = pit64_clkevt_suspend`): its registered suspend callback runs the
resume routine and vice versa. -/
theorem c3_legacy_pm_callbacks_swapped :
  (mchp_clkevt.suspend { cycles := 24615, pres := 13 } EventState.periodic true =
     [Act.write MCHP_PIT64_CR MCHP_PIT64_CR_SWRST, Act.clkDisableUnprepare]) ∧
  (mchp_clkevt.resume { cycles := 24615, pres := 13 } EventState.periodic true =
     Act.clkPrepareEnable ::
       mchp_pit64_reset { cycles := 24615, pres := 13 } MCHP_PIT64_MR_CONT true) ∧
  (mchp_clkevt.resume { cycles := 24615, pres := 13 } EventState.oneshot true =
     Act.clkPrepareEnable ::
       mchp_pit64_reset { cycles := 24615, pres := 13 } MCHP_PIT64_MR_SMOD true) ∧
  (clkevt.suspend { cycles := 24615, pres := 13 } EventState.periodic true ≠
     [Act.write AT91_PIT64_CR AT91_PIT64_CR_SWRST, Act.clkDisableUnprepare]) ∧
  (clkevt.suspend { cycles := 24615, pres := 13 } EventState.periodic true =
     pit64_clkevt_resume { cycles := 24615, pres := 13 } EventState.periodic true) ∧
  (clkevt.resume { cycles := 24615, pres := 13 } EventState.periodic true =
     pit64_clkevt_suspend { cycles := 24615, pres := 13 } EventState.periodic true) := by
  decide

/-- Claim C4 counterexample: with the register window mapped and the clock
acquired, a second clocksource instantiation returns `-EINVAL` in the
legacy `pit64_dt_init` (its initial `ret` value), not the already-active
error `-EBUSY` that the current `mchp_pit64_dt_init` returns. -/
theorem c4_legacy_double_init_error_code :
  (pit64_dt_init
      { iomap_ok := true, clk_get_ok := true, clk_get_err := 0,
        alloc_ok := true, clk_enable_ok := true, clk_enable_err := 0,
        clk_rate := 32000000, irq := 5, request_irq_ok := true,
        request_irq_err := 0, clksrc_register_ok := true,
        clksrc_register_err := 0 }
      { csd := some { cycles := ULLONG_MAX, pres := 13 }, ced := none }
      Pit64Mode.clksrc).1 = -EINVAL ∧
  (mchp_pit64_dt_init
      { iomap_ok := true, clk_get_ok := true, clk_get_err := 0,
        alloc_ok := true, clk_enable_ok := true, clk_enable_err := 0,
        clk_rate := 32000000, irq := 5, request_irq_ok := true,
        request_irq_err := 0, clksrc_register_ok := true,
        clksrc_register_err := 0 }
      { csd := some { cycles := ULLONG_MAX, pres := 13 }, ced := none }
      Pit64Mode.clksrc).1 = -EBUSY ∧
  -EINVAL ≠ -EBUSY := by decide

/-- Claim C4 (amended): whenever the mapping and clock acquisition succeed
and the registry slot for the requested mode is occupied, both variants and
both modes fail — the legacy `pit64_dt_init` with its default `-EINVAL`,
the current `mchp_pit64_dt_init` with the already-active error `-EBUSY` —
leave the registry (and hence the live instance) unchanged, perform no
hardware register access, and release exactly the clock reference and the
register mapping. -/
theorem c4_double_init_rollback :
  ∀ (env : InitEnv) (reg : Registry) (cd : CommonData),
    env.iomap_ok = true → env.clk_get_ok = true →
    (reg.csd = some cd →
       pit64_dt_init env reg Pit64Mode.clksrc =
         (-EINVAL, reg, [Act.iomap, Act.clkGet, Act.clkPut, Act.iounmap]) ∧
       mchp_pit64_dt_init env reg Pit64Mode.clksrc =
         (-EBUSY, reg, [Act.iomap, Act.clkGet, Act.clkPut, Act.iounmap])) ∧
    (reg.ced = some cd →
       pit64_dt_init env reg Pit64Mode.clkevt =
         (-EINVAL, reg, [Act.iomap, Act.clkGet, Act.clkPut, Act.iounmap]) ∧
       mchp_pit64_dt_init env reg Pit64Mode.clkevt =
         (-EBUSY, reg, [Act.iomap, Act.clkGet, Act.clkPut, Act.iounmap])) ∧
    (List.all [Act.iomap, Act.clkGet, Act.clkPut, Act.iounmap]
       (fun a => !a.isRegWrite)) = true := by
  intro env reg cd h1 h2
  refine ⟨?_, ?_, by decide⟩
  · intro hcsd
    constructor <;> simp [pit64_dt_init, mchp_pit64_dt_init, h1, h2, hcsd]
  · intro hced
    constructor <;> simp [pit64_dt_init, mchp_pit64_dt_init, h1, h2, hced]

/-- Witness for the amended C4 theorem at a concrete environment and an
occupied clocksource slot. -/
theorem c4_double_init_rollback_witness :
  pit64_dt_init
      { iomap_ok := true, clk_get_ok := true, clk_get_err := 0,
        alloc_ok := true, clk_enable_ok := true, clk_enable_err := 0,
        clk_rate := 32000000, irq := 5, request_irq_ok := true,
        request_irq_err := 0, clksrc_register_ok := true,
        clksrc_register_err := 0 }
      { csd := some { cycles := ULLONG_MAX, pres := 13 }, ced := none }
      Pit64Mode.clksrc =
    (-EINVAL, { csd := some { cycles := ULLONG_MAX, pres := 13 }, ced := none },
     [Act.iomap, Act.clkGet, Act.clkPut, Act.iounmap]) ∧
  mchp_pit64_dt_init
      { iomap_ok := true, clk_get_ok := true, clk_get_err := 0,
        alloc_ok := true, clk_enable_ok := true, clk_enable_err := 0,
        clk_rate := 32000000, irq := 5, request_irq_ok := true,
        request_irq_err := 0, clksrc_register_ok := true,
        clksrc_register_err := 0 }
      { csd := some { cycles := ULLONG_MAX, pres := 13 }, ced := none }
      Pit64Mode.clksrc =
    (-EBUSY, { csd := some { cycles := ULLONG_MAX, pres := 13 }, ced := none },
     [Act.iomap, Act.clkGet, Act.clkPut, Act.iounmap]) :=
  (c4_double_init_rollback
      { iomap_ok := true, clk_get_ok := true, clk_get_err := 0,
        alloc_ok := true, clk_enable_ok := true, clk_enable_err := 0,
        clk_rate := 32000000, irq := 5, request_irq_ok := true,
        request_irq_err := 0, clksrc_register_ok := true,
        clksrc_register_err := 0 }
      { csd := some { cycles := ULLONG_MAX, pres := 13 }, ced := none }
      { cycles := ULLONG_MAX, pres := 13 } rfl rfl).1 rfl

/-- Claim C5: for positive inputs with `input_rate ≥ target_rate` the
returned divider is claimed to satisfy the target bound or be the maximum
legal divider, with first-fit minimality, in both variants.  This fails on
the code: at `(32000000, 2500000)` the current `mchp_pit64_pres_compute`
returns 12, which neither satisfies the bound (`32000000 / 12 > 2500000`)
nor equals the maximum divider (16, or 15 under the variant's own clamp);
the legacy variant returns 13, which does satisfy the bound. -/
theorem c5_mchp_first_fit_violated :
  2500000 ≤ 32000000 ∧
  mchp_pit64_pres_compute 32000000 2500000 = 12 ∧
  2500000 < 32000000 / 12 ∧
  (12 : Nat) ≠ MCHP_PRES_MAX ∧
  (12 : Nat) ≠ MCHP_PRES_MAX - 1 ∧
  32000000 / 13 ≤ 2500000 ∧
  pit64_pres_compute 32000000 2500000 = 13 := by decide

/-- Claim C6: for every common-data record, mode word and interrupt-enable
flag, the reset operation of both variants performs exactly, in order: the
software reset to the control register, the merged mode word (mode flags OR
the prescaler field computed from `pres - 1`) to the mode register, the
reload value via the MSB-first/LSB-last counter-write protocol, the
period-interrupt enable write only when requested, and the start command. -/
theorem c6_reset_access_sequence :
  ∀ (cd : CommonData) (mode : Nat) (irq_ena : Bool),
    pit64_reset cd mode irq_ena =
      [pit64_write AT91_PIT64_CR AT91_PIT64_CR_SWRST,
       pit64_write AT91_PIT64_MR (mode ||| AT91_PIT64_PRESCALER (presMinusOne32 cd.pres)),
       pit64_write AT91_PIT64_MSB_PR (cd.cycles >>> 32),
       pit64_write AT91_PIT64_LSB_PR (cd.cycles &&& AT91_PIT64_LSBMASK)] ++
      (if irq_ena then [pit64_write AT91_PIT64_IER AT91_PIT64_IER_PERIOD] else []) ++
      [pit64_write AT91_PIT64_CR AT91_PIT64_CR_START] ∧
    mchp_pit64_reset cd mode irq_ena =
      [mchp_pit64_write MCHP_PIT64_CR MCHP_PIT64_CR_SWRST,
       mchp_pit64_write MCHP_PIT64_MR (mode ||| MCHP_PIT64_PRESCALER (presMinusOne32 cd.pres)),
       mchp_pit64_write MCHP_PIT64_MSB_PR (cd.cycles >>> 32),
       mchp_pit64_write MCHP_PIT64_LSB_PR (cd.cycles &&& MCHP_PIT64_LSBMASK)] ++
      (if irq_ena then [mchp_pit64_write MCHP_PIT64_IER MCHP_PIT64_IER_PERIOD] else []) ++
      [mchp_pit64_write MCHP_PIT64_CR MCHP_PIT64_CR_START] := by
  intro cd mode irq_ena
  cases irq_ena <;>
    simp [pit64_reset, mchp_pit64_reset, pit64_set_period, mchp_pit64_set_period]

/-- Claim C7: in both variants, the counter read accesses the low half
register first and the high half second and returns `(high << 32) | low`,
and for every 64-bit value the counter write stores the high 32 bits to the
high-half period register first and the low 32 bits to the low-half period
register second. -/
theorem c7_counter_access_protocol :
  ∀ (w : RegWindow) (v : Nat), v < 18446744073709551616 →
    pit64_get_period w =
      ((pit64_read w AT91_PIT64_TMSB_CVR <<< 32) ||| pit64_read w AT91_PIT64_TLSB_CVR,
       [Act.read AT91_PIT64_TLSB_CVR, Act.read AT91_PIT64_TMSB_CVR]) ∧
    mchp_pit64_get_period w =
      ((mchp_pit64_read w MCHP_PIT64_TMSBR <<< 32) ||| mchp_pit64_read w MCHP_PIT64_TLSBR,
       [Act.read MCHP_PIT64_TLSBR, Act.read MCHP_PIT64_TMSBR]) ∧
    pit64_set_period v =
      [Act.write AT91_PIT64_MSB_PR (v >>> 32),
       Act.write AT91_PIT64_LSB_PR (v &&& AT91_PIT64_LSBMASK)] ∧
    mchp_pit64_set_period v =
      [Act.write MCHP_PIT64_MSB_PR (v >>> 32),
       Act.write MCHP_PIT64_LSB_PR (v &&& MCHP_PIT64_LSBMASK)] := by
  intro w v hv
  have hmsb : (v >>> 32) % U32MOD = v >>> 32 := by
    apply Nat.mod_eq_of_lt
    have h1 : v >>> 32 = v / 2 ^ 32 := Nat.shiftRight_eq_div_pow v 32
    rw [h1]
    have h2 : v / 2 ^ 32 < 2 ^ 32 := Nat.div_lt_of_lt_mul (by norm_num; omega)
    simpa [U32MOD] using h2
  have hlsb : (v &&& 4294967295) % U32MOD = v &&& 4294967295 := by
    apply Nat.mod_eq_of_lt
    exact lt_of_le_of_lt Nat.and_le_right (by norm_num [U32MOD])
  refine ⟨rfl, rfl, ?_, ?_⟩ <;>
    simp [pit64_set_period, mchp_pit64_set_period, pit64_write, mchp_pit64_write,
      AT91_PIT64_LSBMASK, MCHP_PIT64_LSBMASK, hmsb, hlsb]

/-- Witness for C7 at a concrete 64-bit value. -/
theorem c7_counter_access_protocol_witness :
  pit64_set_period 77 =
    [Act.write AT91_PIT64_MSB_PR (77 >>> 32),
     Act.write AT91_PIT64_LSB_PR (77 &&& AT91_PIT64_LSBMASK)] :=
  (c7_counter_access_protocol (fun _ => 0) 77 (by decide)).2.2.1

/-- Claim C8: in both variants, the interrupt handler returns "not mine"
without reading the status register or dispatching whenever the device it
is invoked for is not the registered owner (whatever the status bit holds);
it returns "handled" — after reading the status register and dispatching to
the registered event callback — exactly when it is invoked for the
registered owner and the period-expired bit is observed set; every other
outcome is "not mine". -/
theorem c8_interrupt_ownership_and_status :
  ∀ (registered : Option Nat) (devId : Nat) (isr : Nat),
    (registered ≠ some devId →
       pit64_interrupt registered devId isr = (IrqResult.noneOf, []) ∧
       mchp_pit64_interrupt registered devId isr = (IrqResult.noneOf, [])) ∧
    ((pit64_interrupt registered devId isr).1 = IrqResult.handled ↔
       registered = some devId ∧ (isr % U32MOD) &&& AT91_PIT64_ISR_PERIOD ≠ 0) ∧
    ((mchp_pit64_interrupt registered devId isr).1 = IrqResult.handled ↔
       registered = some devId ∧ (isr % U32MOD) &&& MCHP_PIT64_ISR_PERIOD ≠ 0) ∧
    (registered = some devId → (isr % U32MOD) &&& AT91_PIT64_ISR_PERIOD ≠ 0 →
       pit64_interrupt registered devId isr =
         (IrqResult.handled, [Act.read AT91_PIT64_ISR, Act.dispatch]) ∧
       mchp_pit64_interrupt registered devId isr =
         (IrqResult.handled, [Act.read MCHP_PIT64_ISR, Act.dispatch])) ∧
    ((pit64_interrupt registered devId isr).1 ≠ IrqResult.handled →
       (pit64_interrupt registered devId isr).1 = IrqResult.noneOf) ∧
    ((mchp_pit64_interrupt registered devId isr).1 ≠ IrqResult.handled →
       (mchp_pit64_interrupt registered devId isr).1 = IrqResult.noneOf) := by
  intro r d isr
  by_cases h : r = some d
  · by_cases hb : isr % U32MOD % 2 = 1 <;>
      simp [pit64_interrupt, mchp_pit64_interrupt, h, hb,
        AT91_PIT64_ISR_PERIOD, MCHP_PIT64_ISR_PERIOD]
  · simp [pit64_interrupt, mchp_pit64_interrupt, h,
      AT91_PIT64_ISR_PERIOD, MCHP_PIT64_ISR_PERIOD]

/-- Witness for C8: a device that is not the registered owner gets
"not mine" with no status read even though its status bit is set. -/
theorem c8_interrupt_ownership_witness :
  pit64_interrupt (some 5) 7 1 = (IrqResult.noneOf, []) ∧
  mchp_pit64_interrupt (some 5) 7 1 = (IrqResult.noneOf, []) :=
  (c8_interrupt_ownership_and_status (some 5) 7 1).1 (by decide)

/-- Claim C9: for every clockevent state and every delta, `set_next_event`
in both variants unconditionally programs delta via the counter-write
protocol, issues the start command, and returns 0; its behaviour does not
depend on the state, so out-of-state calls are silently accepted. -/
theorem c9_set_next_event_unconditional :
  ∀ (state : EventState) (evt : Nat),
    pit64_clkevt_set_next_event evt state =
      ((0 : Int), [pit64_write AT91_PIT64_MSB_PR (evt >>> 32),
           pit64_write AT91_PIT64_LSB_PR (evt &&& AT91_PIT64_LSBMASK),
           pit64_write AT91_PIT64_CR AT91_PIT64_CR_START]) ∧
    mchp_pit64_clkevt_set_next_event evt state =
      ((0 : Int), [mchp_pit64_write MCHP_PIT64_MSB_PR (evt >>> 32),
           mchp_pit64_write MCHP_PIT64_LSB_PR (evt &&& MCHP_PIT64_LSBMASK),
           mchp_pit64_write MCHP_PIT64_CR MCHP_PIT64_CR_START]) ∧
    pit64_clkevt_set_next_event evt state =
      pit64_clkevt_set_next_event evt EventState.shutdown ∧
    mchp_pit64_clkevt_set_next_event evt state =
      mchp_pit64_clkevt_set_next_event evt EventState.shutdown := by
  intro state evt
  simp [pit64_clkevt_set_next_event, mchp_pit64_clkevt_set_next_event,
    pit64_set_period, mchp_pit64_set_period]

/-- Claim C10: the effective-rate division in the current variant's init
paths is claimed to have a nonzero divisor for every positive clock rate.
This fails on the code: for the positive rate 2,500,000 Hz the divisor
`mchp_pit64_pres_compute clk_rate target` is 0 in both the clocksource and
the clockevent init, so `clk_rate / pres` divides by zero. -/
theorem c10_init_divisor_zero :
  0 < 2500000 ∧
  mchp_pit64_pres_compute 2500000 MCHP_PIT64_CS_RATE = 0 ∧
  mchp_pit64_pres_compute 2500000 MCHP_PIT64_CE_RATE = 0 := by decide

end Pit64
